import Mathlib

set_option maxRecDepth 8000

/-!
Shallow embedding of the RepoWatch notifier programs.

`vps_main.py` is a polling Discord bot: it keeps two sets of already-seen
GitHub item IDs (`seen_prs`, `seen_issues`), periodically fetches the open
pull requests and open issues of one repository, partitions the fetched
items into new and known, posts an embed for each new item (oldest first),
and persists the seen sets after every cycle.  `main.py` is a one-shot
webhook notifier that formats a single pull-request or issue event payload.

Strings are Lean `String`s; Python's code-point slicing `s[:n]` is embedded
as a prefix of the character list.  Python `set`s of integer IDs become
`Finset ℕ`.  The fallible pieces (the HTTP fetch, loading the state file,
Discord delivery) are embedded as total functions over an explicit input
describing the outside world's behaviour.
-/

/-- A GitHub item as delivered by the list endpoints (`vps_main.py` reads the
fields `id`, `number`, `title`, `body`, `html_url`, `user.login`,
`user.avatar_url`, `created_at`, `labels[].name`, for pull requests
`head.ref`/`base.ref`, and for issues the optional `pull_request` marker).
`body` is `none` when the JSON field is null or absent; `labels` holds the
label names; `created_at` is the creation timestamp; `pull_request_marker`
records whether the issues-endpoint payload carries a `pull_request` key. -/
structure RemoteItem where
  id : ℕ
  number : ℕ
  title : String
  body : Option String
  html_url : String
  user_login : String
  user_avatar_url : String
  created_at : ℕ
  labels : List String
  head_ref : String
  base_ref : String
  pull_request_marker : Bool
deriving DecidableEq

/-- One field of a Discord embed (`embed.add_field(name=…, value=…, inline=…)`). -/
structure EmbedField where
  name : String
  value : String
  inline : Bool
deriving DecidableEq

/-- A Discord embed as both programs build it: title, url, description,
color, ordered fields, and the optional decorations (timestamp, thumbnail,
footer) that only the polling bot sets. -/
structure Embed where
  title : String
  url : String
  description : String
  color : ℕ
  fields : List EmbedField
  timestamp : Option ℕ
  thumbnail_url : Option String
  footer_text : Option String
deriving DecidableEq

/-- Value of `discord.Color.green()` in discord.py. -/
def discord_color_green : ℕ := 0x2ECC71

/-- Value of `discord.Color.red()` in discord.py. -/
def discord_color_red : ℕ := 0xE74C3C

/-- Python's code-point slice `s[:n]`. -/
def pySlice (s : String) (n : ℕ) : String := ⟨s.data.take n⟩

/-- Python truthiness of a nullable string (`if pr.get('body')` /
`if pr["body"]`): false for null/absent and for the empty string. -/
def pyTruthyStr (body : Option String) : Bool :=
  match body with
  | none => false
  | some s => !(s == "")

/-- The embed description both `create_pr_embed` and `create_issue_embed`
compute: `(body[:500] if body else "No description provided") +
("..." if body and len(body) > 500 else "")`. -/
def embed_description (body : Option String) : String :=
  (if pyTruthyStr body then pySlice (body.getD "") 500 else "No description provided")
    ++ (if pyTruthyStr body ∧ 500 < (body.getD "").length then "..." else "")

/-- The `Labels` field both polling embed builders append when
`pr.get('labels')` is truthy and the comma-joined names are nonempty. -/
def labels_field (labels : List String) : List EmbedField :=
  if !labels.isEmpty then
    let joined := String.intercalate ", " labels
    if !(joined == "") then [⟨"Labels", joined, false⟩] else []
  else []

/-- Embedding of `vps_main.create_pr_embed`: the polling bot's embed for a new pull
request, parameterised by the configured `GITHUB_REPO` string. -/
def create_pr_embed (repo : String) (pr : RemoteItem) : Embed where
  title := "🔀 New Pull Request: " ++ pr.title
  url := pr.html_url
  description := embed_description pr.body
  color := discord_color_green
  fields :=
    [⟨"Repository", repo, true⟩,
     ⟨"Author", pr.user_login, true⟩,
     ⟨"Branch", pr.head_ref ++ " → " ++ pr.base_ref, false⟩]
      ++ labels_field pr.labels
  timestamp := some pr.created_at
  thumbnail_url := some pr.user_avatar_url
  footer_text := some ("PR #" ++ toString pr.number)

/-- Embedding of `vps_main.create_issue_embed`: the polling bot's embed for a
new issue. -/
def create_issue_embed (repo : String) (issue : RemoteItem) : Embed where
  title := "🐛 New Issue: " ++ issue.title
  url := issue.html_url
  description := embed_description issue.body
  color := discord_color_red
  fields :=
    [⟨"Repository", repo, true⟩,
     ⟨"Author", issue.user_login, true⟩]
      ++ labels_field issue.labels
  timestamp := some issue.created_at
  thumbnail_url := some issue.user_avatar_url
  footer_text := some ("Issue #" ++ toString issue.number)

/-- Embedding of `main.format_pr`: the one-shot webhook formatter's embed for a
pull-request event.  Its description is `pr["body"][:500] if pr["body"] else
"No description provided"` — no ellipsis marker — and it emits exactly the
Repository/Author/Branch fields, with no timestamp, thumbnail or footer.
`repo` is the payload's `repository.full_name`. -/
def format_pr (repo : String) (pr : RemoteItem) : Embed where
  title := "🔀 New Pull Request: " ++ pr.title
  url := pr.html_url
  description :=
    if pyTruthyStr pr.body then pySlice (pr.body.getD "") 500 else "No description provided"
  color := 0x2ECC71
  fields :=
    [⟨"Repository", repo, true⟩,
     ⟨"Author", pr.user_login, true⟩,
     ⟨"Branch", pr.head_ref ++ " → " ++ pr.base_ref, false⟩]
  timestamp := none
  thumbnail_url := none
  footer_text := none

/-- Embedding of `main.format_issue`: the one-shot webhook formatter's embed
for an issue event. -/
def format_issue (repo : String) (issue : RemoteItem) : Embed where
  title := "🐛 New Issue: " ++ issue.title
  url := issue.html_url
  description :=
    if pyTruthyStr issue.body then pySlice (issue.body.getD "") 500 else "No description provided"
  color := 0xE74C3C
  fields :=
    [⟨"Repository", repo, true⟩,
     ⟨"Author", issue.user_login, true⟩]
  timestamp := none
  thumbnail_url := none
  footer_text := none

/-- Erase the decorations (timestamp, thumbnail, footer) from an embed, to
compare the polling bot's embeds with the webhook formatter's. -/
def stripDecorations (e : Embed) : Embed :=
  { e with timestamp := none, thumbnail_url := none, footer_text := none }

/-- The polling bot's mutable tracking state: the sets `seen_prs` and
`seen_issues` of already-notified GitHub item IDs. -/
structure BotState where
  seen_prs : Finset ℕ
  seen_issues : Finset ℕ
deriving DecidableEq

/-- What one `session.get` against the GitHub API comes back with: either an
HTTP response carrying a status code and (for 200) the parsed JSON item
list, or a raised transport exception. -/
inductive HttpResult where
  | response (status : ℕ) (items : List RemoteItem)
  | failure
deriving DecidableEq

/-- Which log line `fetch_github_data` prints for a given response. -/
inductive FetchLog where
  | ok
  | rateLimit
  | apiError (status : ℕ)
  | fetchError
deriving DecidableEq

/-- Embedding of `vps_main.fetch_github_data`: returns the parsed body on status 200;
on 403 logs the rate-limit message and returns `None`; on any other status
logs the status code and returns `None`; a raised exception is caught,
logged, and also yields `None`.  The first component is the return value,
the second the log line. -/
def fetch_github_data : HttpResult → Option (List RemoteItem) × FetchLog
  | .response status items =>
    if status = 200 then (some items, .ok)
    else if status = 403 then (none, .rateLimit)
    else (none, .apiError status)
  | .failure => (none, .fetchError)

/-- What loading `seen_items.json` encounters: the file does not exist, the
open/parse raises (malformed JSON, unreadable file), or it parses to an
object whose `prs` and `issues` keys (each possibly absent) hold ID lists. -/
inductive LoadSource where
  | fileMissing
  | loadError
  | fileData (prs : Option (List ℕ)) (issues : Option (List ℕ))
deriving DecidableEq

/-- Embedding of `vps_main.load_seen_items`: when the file does not exist nothing
happens (the prior in-memory sets are kept); when reading or parsing
raises, the handler resets both sets to empty; otherwise the sets are
rebuilt from `data.get('prs', [])` and `data.get('issues', [])`. -/
def load_seen_items (src : LoadSource) (st : BotState) : BotState :=
  match src with
  | .fileMissing => st
  | .loadError => ⟨∅, ∅⟩
  | .fileData prs issues => ⟨(prs.getD []).toFinset, (issues.getD []).toFinset⟩

/-- Outcome of one `send_discord_message` call: the channel accepted the
embed, `bot.get_channel` found no channel, or `channel.send` raised (the
exception is caught and logged either way). -/
inductive DeliveryResult where
  | sent
  | channelNotFound
  | sendError
deriving DecidableEq

/-- The new/known partition pass of `check_repository`: walk the fetched
list in order; an item whose `id` is not in the seen set is appended to the
new list and its `id` added to the set, all before any delivery happens.
Returns the new-item list (in fetch order) and the grown seen set. -/
def partitionNew (items : List RemoteItem) (seen : Finset ℕ) :
    List RemoteItem × Finset ℕ :=
  match items with
  | [] => ([], seen)
  | item :: rest =>
    if item.id ∈ seen then
      partitionNew rest seen
    else
      let p := partitionNew rest (insert item.id seen)
      (item :: p.1, p.2)

/-- Python truthiness of `fetch_github_data`'s result (`if prs:` /
`if issues_data:`): false for `None` and for an empty list. -/
def pyTruthyFetch (fetched : Option (List RemoteItem)) : Bool :=
  match fetched with
  | none => false
  | some l => !l.isEmpty

/-- Everything one run of `check_repository` produces: the new-item lists
(in fetch order, as built by the partition pass), the delivery attempts in
the order they are made (each embed with the outcome the channel gave it),
the final in-memory state, and the state handed to `save_seen_items` at the
end of the cycle. -/
structure CycleOutput where
  newPrs : List RemoteItem
  newIssues : List RemoteItem
  prDeliveries : List (Embed × DeliveryResult)
  issueDeliveries : List (Embed × DeliveryResult)
  state : BotState
  saved : BotState

/-- Embedding of `vps_main.check_repository`, one cycle.  `env` is the Discord channel's
behaviour (what `send_discord_message` would get back for each embed, an
effect the cycle does not branch on).  The PR fetch result and issue fetch
result come in as `fetch_github_data` return values.  Mirrors the source:
if the PR fetch is truthy, partition it against `seen_prs` (adding every
new ID to the set) and then deliver the new PRs in reverse order; then the
same for issues, after dropping items whose payload carries a
`pull_request` key; finally `save_seen_items()` persists both sets. -/
def check_repository (repo : String) (env : Embed → DeliveryResult)
    (prFetch issueFetch : Option (List RemoteItem)) (st : BotState) :
    CycleOutput :=
  let prPart :=
    if pyTruthyFetch prFetch then partitionNew (prFetch.getD []) st.seen_prs
    else ([], st.seen_prs)
  let prDeliv := prPart.1.reverse.map fun pr =>
    let e := create_pr_embed repo pr
    (e, env e)
  let issuesFiltered := (issueFetch.getD []).filter fun i => !i.pull_request_marker
  let issPart :=
    if pyTruthyFetch issueFetch then partitionNew issuesFiltered st.seen_issues
    else ([], st.seen_issues)
  let issDeliv := issPart.1.reverse.map fun issue =>
    let e := create_issue_embed repo issue
    (e, env e)
  let finalState : BotState := ⟨prPart.2, issPart.2⟩
  { newPrs := prPart.1
    newIssues := issPart.1
    prDeliveries := prDeliv
    issueDeliveries := issDeliv
    state := finalState
    saved := finalState }

/-- What the `!reset` command produces: both sets cleared
(`seen_prs.clear()`, `seen_issues.clear()`) and the cleared state handed to
`save_seen_items`. -/
structure ResetOutput where
  state : BotState
  saved : BotState
deriving DecidableEq

/-- Embedding of `vps_main.reset` (admin command): clears both seen sets and persists
the cleared state, whatever the prior state was. -/
def reset (_st : BotState) : ResetOutput :=
  ⟨⟨∅, ∅⟩, ⟨∅, ∅⟩⟩

example : embed_description (some "abc") = "abc" := by decide
example : embed_description none = "No description provided" := by decide
example : embed_description (some "") = "No description provided" := by decide
example :
    embed_description (some ⟨List.replicate 501 'a'⟩)
      = ⟨List.replicate 500 'a' ++ "...".data⟩ := by decide

/-- The partition pass never removes an ID from the seen set. -/
theorem partitionNew_seen_mono (items : List RemoteItem) (seen : Finset ℕ) :
    seen ⊆ (partitionNew items seen).2 := by
  induction items generalizing seen with
  | nil => simp [partitionNew]
  | cons x rest ih =>
    simp only [partitionNew]
    split
    · exact ih seen
    · exact (Finset.subset_insert x.id seen).trans (ih (insert x.id seen))

/-- After the partition pass, every fetched item's ID is in the seen set. -/
theorem partitionNew_mem_seen (items : List RemoteItem) (seen : Finset ℕ)
    (i : RemoteItem) (hi : i ∈ items) : i.id ∈ (partitionNew items seen).2 := by
  induction items generalizing seen with
  | nil => cases hi
  | cons x rest ih =>
    simp only [partitionNew]
    split
    · rcases List.mem_cons.mp hi with rfl | hmem
      · exact partitionNew_seen_mono rest seen (by assumption)
      · exact ih seen hmem
    · rcases List.mem_cons.mp hi with rfl | hmem
      · exact partitionNew_seen_mono rest (insert i.id seen)
          (Finset.mem_insert_self i.id seen)
      · exact ih (insert x.id seen) hmem

/-- The new-item list is a sublist of the fetched list (order preserved). -/
theorem partitionNew_sublist (items : List RemoteItem) (seen : Finset ℕ) :
    List.Sublist (partitionNew items seen).1 items := by
  induction items generalizing seen with
  | nil => simp [partitionNew]
  | cons x rest ih =>
    simp only [partitionNew]
    split
    · exact (ih seen).cons x
    · exact (ih (insert x.id seen)).cons₂ x

/-- An ID already in the seen set is never the ID of a partitioned-new item. -/
theorem partitionNew_not_new_of_seen (items : List RemoteItem) (seen : Finset ℕ)
    (n : ℕ) (hn : n ∈ seen) :
    ∀ j ∈ (partitionNew items seen).1, j.id ≠ n := by
  induction items generalizing seen with
  | nil => simp [partitionNew]
  | cons x rest ih =>
    simp only [partitionNew]
    split
    · exact ih seen hn
    · intro j hj
      rcases List.mem_cons.mp hj with rfl | hmem
      · rename_i hx
        exact fun h => hx (h ▸ hn)
      · exact ih (insert x.id seen) (Finset.mem_insert_of_mem hn) j hmem

/-- Every ID in the grown seen set was either seen before or belongs to a
fetched item. -/
theorem partitionNew_seen_src (items : List RemoteItem) (seen : Finset ℕ)
    (n : ℕ) (hn : n ∈ (partitionNew items seen).2) :
    n ∈ seen ∨ ∃ i ∈ items, i.id = n := by
  induction items generalizing seen with
  | nil => exact Or.inl hn
  | cons x rest ih =>
    simp only [partitionNew] at hn
    split at hn
    · rcases ih seen hn with h | ⟨i, hi, rfl⟩
      · exact Or.inl h
      · exact Or.inr ⟨i, List.mem_cons_of_mem x hi, rfl⟩
    · rcases ih (insert x.id seen) hn with h | ⟨i, hi, rfl⟩
      · rcases Finset.mem_insert.mp h with rfl | h
        · exact Or.inr ⟨x, List.mem_cons_self x rest, rfl⟩
        · exact Or.inl h
      · exact Or.inr ⟨i, List.mem_cons_of_mem x hi, rfl⟩

/-- A fetched item whose ID is not yet seen contributes a new item with
that ID to the partition output. -/
theorem partitionNew_new_of_not_seen (items : List RemoteItem) (seen : Finset ℕ)
    (i : RemoteItem) (hi : i ∈ items) (hns : i.id ∉ seen) :
    ∃ j ∈ (partitionNew items seen).1, j.id = i.id := by
  induction items generalizing seen with
  | nil => cases hi
  | cons x rest ih =>
    simp only [partitionNew]
    split
    · rcases List.mem_cons.mp hi with rfl | hmem
      · exact absurd (by assumption) hns
      · exact ih seen hmem hns
    · rcases List.mem_cons.mp hi with rfl | hmem
      · exact ⟨i, List.mem_cons_self i _, rfl⟩
      · by_cases hx : i.id = x.id
        · exact ⟨x, List.mem_cons_self x _, hx.symm⟩
        · obtain ⟨j, hj, hjid⟩ := ih (insert x.id seen) hmem
            (fun h => (Finset.mem_insert.mp h).elim hx hns)
          exact ⟨j, List.mem_cons_of_mem x hj, hjid⟩

/-- With `n` already seen, no partitioned-new item counts for ID `n`. -/
theorem partitionNew_countP_eq_zero (items : List RemoteItem) (seen : Finset ℕ)
    (n : ℕ) (hn : n ∈ seen) :
    (partitionNew items seen).1.countP (fun i => decide (i.id = n)) = 0 := by
  rw [List.countP_eq_zero]
  intro j hj
  simpa using partitionNew_not_new_of_seen items seen n hn j hj

/-- Within one partition pass, at most one new item carries a given ID. -/
theorem partitionNew_countP_le_one (items : List RemoteItem) (seen : Finset ℕ)
    (n : ℕ) :
    (partitionNew items seen).1.countP (fun i => decide (i.id = n)) ≤ 1 := by
  induction items generalizing seen with
  | nil => simp [partitionNew]
  | cons x rest ih =>
    simp only [partitionNew]
    split
    · exact ih seen
    · by_cases hx : x.id = n
      · subst hx
        rw [List.countP_cons_of_pos _ _ (by simp),
          partitionNew_countP_eq_zero rest (insert x.id seen) x.id
            (Finset.mem_insert_self x.id seen)]
      · rw [List.countP_cons_of_neg _ _ (by simpa using hx)]
        exact ih (insert x.id seen)

/-- A concrete pull request used to instantiate the theorems. -/
def samplePR : RemoteItem where
  id := 11
  number := 1
  title := "Add feature"
  body := some "Adds a feature."
  html_url := "https://example.test/pr/1"
  user_login := "alice"
  user_avatar_url := "https://example.test/alice.png"
  created_at := 5
  labels := []
  head_ref := "feature"
  base_ref := "main"
  pull_request_marker := false

/-- A concrete issue used to instantiate the theorems. -/
def sampleIssue : RemoteItem where
  id := 21
  number := 2
  title := "Crash on start"
  body := none
  html_url := "https://example.test/issue/2"
  user_login := "bob"
  user_avatar_url := "https://example.test/bob.png"
  created_at := 3
  labels := ["bug"]
  head_ref := ""
  base_ref := ""
  pull_request_marker := false

/-- A concrete issues-endpoint item that carries the `pull_request` marker. -/
def sampleMarkedIssue : RemoteItem where
  id := 22
  number := 4
  title := "Actually a PR"
  body := some "Returned by the issues endpoint."
  html_url := "https://example.test/pr/4"
  user_login := "dave"
  user_avatar_url := "https://example.test/dave.png"
  created_at := 7
  labels := []
  head_ref := ""
  base_ref := ""
  pull_request_marker := true

/-- A body of 600 identical characters, for the truncation instances. -/
def body600 : String := ⟨List.replicate 600 'a'⟩

/-- A body of 400 identical characters, for the truncation instances. -/
def body400 : String := ⟨List.replicate 400 'a'⟩

/-- The character list of a string has the string's length. -/
theorem strLength_data (s : String) : s.data.length = s.length := rfl

/-- The polling bot's description helper applied to a nonempty body of at
most 500 characters returns the body unmodified. -/
theorem embed_description_short (s : String) (hne : s ≠ "") (h : s.length ≤ 500) :
    embed_description (some s) = s := by
  have hb : (s == "") = false := by simpa using hne
  have htake : pySlice s 500 = s := by
    show (⟨s.data.take 500⟩ : String) = s
    have h' : s.data.length ≤ 500 := h
    rw [List.take_of_length_le h']
  have h1 : pyTruthyStr (some s) = true := by simp [pyTruthyStr, hb]
  have h2 : ¬(pyTruthyStr (some s) = true ∧ 500 < ((some s).getD "").length) := by
    intro hc
    exact absurd hc.2 (Nat.not_lt.mpr h)
  unfold embed_description
  rw [if_pos h1, if_neg h2, Option.getD_some, htake, String.append_empty]

/-- The polling bot's description helper applied to a body longer than 500
characters appends the ellipsis marker to the 500-character prefix. -/
theorem embed_description_long (s : String) (h : 500 < s.length) :
    embed_description (some s) = pySlice s 500 ++ "..." := by
  have hne : (s == "") = false := by
    have hn : s ≠ "" := by
      intro hs
      subst hs
      exact absurd h (by decide)
    simpa using hn
  have h1 : pyTruthyStr (some s) = true := by simp [pyTruthyStr, hne]
  have h2 : pyTruthyStr (some s) = true ∧ 500 < ((some s).getD "").length :=
    ⟨h1, by simpa using h⟩
  unfold embed_description
  rw [if_pos h1, if_pos h2, Option.getD_some]

/-- The sample pull request with the 600-character body. -/
def item600 : RemoteItem := { samplePR with id := 12, body := some body600 }

/-- The sample pull request with the 400-character body. -/
def item400 : RemoteItem := { samplePR with id := 13, body := some body400 }

/-- C3: for every Remote Item, the polling notifier's embed description —
identical in `create_pr_embed` and `create_issue_embed` — is the first 500
characters of the body followed by the ellipsis marker when the body is
longer than 500 characters, the body unmodified when it is nonempty and at
most 500 characters long, and the fixed placeholder "No description
provided" when the body is absent or empty. -/
theorem c3_description_truncation (repo : String) (item : RemoteItem) :
    (∀ s : String, item.body = some s → 500 < s.length →
      (create_pr_embed repo item).description = pySlice s 500 ++ "..." ∧
      (create_issue_embed repo item).description = pySlice s 500 ++ "...") ∧
    (∀ s : String, item.body = some s → s ≠ "" → s.length ≤ 500 →
      (create_pr_embed repo item).description = s ∧
      (create_issue_embed repo item).description = s) ∧
    ((item.body = none ∨ item.body = some "") →
      (create_pr_embed repo item).description = "No description provided" ∧
      (create_issue_embed repo item).description = "No description provided") := by
  refine ⟨?_, ?_, ?_⟩
  · intro s hs h
    constructor <;> (show embed_description item.body = _; rw [hs])
      <;> exact embed_description_long s h
  · intro s hs hne h
    constructor <;> (show embed_description item.body = _; rw [hs])
      <;> exact embed_description_short s hne h
  · rintro (hb | hb) <;> constructor <;> (show embed_description item.body = _; rw [hb])
      <;> decide

/-- Witness for C3: the 600-character body is truncated with the marker, the
400-character body passes through unmodified, and the bodiless sample issue
gets the placeholder. -/
theorem c3_description_truncation_witness :
    (create_pr_embed "owner/repo" item600).description = pySlice body600 500 ++ "..." ∧
    (create_pr_embed "owner/repo" item400).description = body400 ∧
    (create_issue_embed "owner/repo" sampleIssue).description = "No description provided" :=
  ⟨((c3_description_truncation "owner/repo" item600).1 body600 rfl (by decide)).1,
   ((c3_description_truncation "owner/repo" item400).2.1 body400 rfl (by decide) (by decide)).1,
   ((c3_description_truncation "owner/repo" sampleIssue).2.2 (Or.inl rfl)).2⟩

/-- A body of 501 characters: long enough that the polling bot truncates it
and appends the ellipsis marker, which the webhook formatter does not. -/
def c2LongBody : String := ⟨List.replicate 501 'b'⟩

/-- A pull-request/issue payload with a 501-character body and one label:
on it the webhook formatter and the polling notifier disagree both on the
description (missing ellipsis marker) and on the fields (missing Labels). -/
def c2Item : RemoteItem where
  id := 31
  number := 3
  title := "Big change"
  body := some c2LongBody
  html_url := "https://example.test/pr/3"
  user_login := "carol"
  user_avatar_url := "https://example.test/carol.png"
  created_at := 9
  labels := ["enhancement"]
  head_ref := "big"
  base_ref := "main"
  pull_request_marker := false

/-- Counterexample to C2 as stated: for the payload with a 501-character
body and one label, the webhook formatter's message differs from the
polling notifier's message even after discarding timestamp, thumbnail and
footer — the webhook omits the "..." truncation marker from the
description and omits the Labels field. -/
theorem c2_counterexample :
    format_pr "owner/repo" c2Item ≠ stripDecorations (create_pr_embed "owner/repo" c2Item) ∧
    format_issue "owner/repo" c2Item ≠ stripDecorations (create_issue_embed "owner/repo" c2Item) :=
  ⟨by decide, by decide⟩

/-- C2 (amended): for every pull-request and issue payload whose body is at
most 500 characters once absent bodies count as empty — so no truncation
occurs — and which carries no labels, the webhook formatter's message has
the same title, url, description (placeholder included), color and fields
as the polling notifier's message for the same item, differing only in the
timestamp, thumbnail and footer decorations.  On longer bodies the webhook
formatter omits the ellipsis marker, and on labelled items it omits the
Labels field. -/
theorem c2_amended_same_shape (repo : String) (item : RemoteItem)
    (hbody : (item.body.getD "").length ≤ 500)
    (hlabels : item.labels = []) :
    format_pr repo item = stripDecorations (create_pr_embed repo item) ∧
    format_issue repo item = stripDecorations (create_issue_embed repo item) := by
  have hc : ¬(pyTruthyStr item.body = true ∧ 500 < (item.body.getD "").length) :=
    fun hand => absurd hand.2 (Nat.not_lt.mpr hbody)
  have hdesc : embed_description item.body
      = (if pyTruthyStr item.body then pySlice (item.body.getD "") 500
         else "No description provided") := by
    unfold embed_description
    rw [if_neg hc, String.append_empty]
  have hlf : labels_field item.labels = [] := by rw [hlabels]; rfl
  constructor
  · show format_pr repo item = stripDecorations (create_pr_embed repo item)
    unfold format_pr create_pr_embed stripDecorations
    simp only [hdesc, hlf, List.append_nil, discord_color_green]
  · show format_issue repo item = stripDecorations (create_issue_embed repo item)
    unfold format_issue create_issue_embed stripDecorations
    simp only [hdesc, hlf, List.append_nil, discord_color_red]

/-- Witness for the amended C2: on the short-bodied, label-free sample pull
request the two formatters agree up to decorations. -/
theorem c2_amended_same_shape_witness :
    format_pr "owner/repo" samplePR = stripDecorations (create_pr_embed "owner/repo" samplePR) ∧
    format_issue "owner/repo" samplePR = stripDecorations (create_issue_embed "owner/repo" samplePR) :=
  c2_amended_same_shape "owner/repo" samplePR (by decide) rfl

/-- C7: the GitHub fetch returns the parsed item list exactly when the HTTP
status is 200; it returns the "unavailable" signal `none` — being a total
function, it never propagates an exception — for every non-200 status and
for the transport-failure case; a 403 takes the distinct rate-limit branch,
while every other non-200 status logs a generic API error with its code. -/
theorem c7_fetch_github_data_behaviour :
    (∀ items, fetch_github_data (.response 200 items) = (some items, .ok)) ∧
    (∀ r : HttpResult, ∀ items, (fetch_github_data r).1 = some items →
      r = .response 200 items) ∧
    (∀ status items, status ≠ 200 →
      (fetch_github_data (.response status items)).1 = none) ∧
    (fetch_github_data .failure = (none, .fetchError)) ∧
    (∀ items, fetch_github_data (.response 403 items) = (none, .rateLimit)) ∧
    (∀ status items, status ≠ 200 → status ≠ 403 →
      fetch_github_data (.response status items) = (none, .apiError status)) := by
  refine ⟨fun items => by simp [fetch_github_data], ?_, ?_, rfl, ?_, ?_⟩
  · intro r items h
    cases r with
    | response status l =>
      by_cases h200 : status = 200
      · subst h200
        simp only [fetch_github_data, if_pos rfl] at h
        cases h
        rfl
      · by_cases h403 : status = 403 <;>
          simp [fetch_github_data, h200, h403] at h
    | failure => simp [fetch_github_data] at h
  · intro status items h200
    by_cases h403 : status = 403 <;> simp [fetch_github_data, h200, h403]
  · intro items
    simp [fetch_github_data]
  · intro status items h200 h403
    simp [fetch_github_data, h200, h403]

/-- Witness for C7 at concrete responses: a 200 returns the parsed list, a
500 and a transport failure return the unavailable signal, and a 403 takes
the rate-limit branch. -/
theorem c7_fetch_github_data_behaviour_witness :
    fetch_github_data (.response 200 [samplePR]) = (some [samplePR], .ok) ∧
    (fetch_github_data (.response 500 [samplePR])).1 = none ∧
    fetch_github_data .failure = (none, .fetchError) ∧
    fetch_github_data (.response 403 []) = (none, .rateLimit) ∧
    fetch_github_data (.response 500 [samplePR]) = (none, .apiError 500) :=
  ⟨c7_fetch_github_data_behaviour.1 [samplePR],
   c7_fetch_github_data_behaviour.2.2.1 500 [samplePR] (by decide),
   c7_fetch_github_data_behaviour.2.2.2.1,
   c7_fetch_github_data_behaviour.2.2.2.2.1 [],
   c7_fetch_github_data_behaviour.2.2.2.2.2 500 [samplePR] (by decide) (by decide)⟩

/-- A truthy fetch result is a nonempty list. -/
theorem pyTruthyFetch_some (l : List RemoteItem) (hne : l ≠ []) :
    pyTruthyFetch (some l) = true := by
  cases l with
  | nil => exact absurd rfl hne
  | cons x t => rfl

/-- With a nonempty PR fetch, the cycle's new PRs are the partition pass's
new list. -/
theorem check_repository_newPrs (repo : String) (env : Embed → DeliveryResult)
    (prs : List RemoteItem) (issueFetch : Option (List RemoteItem))
    (st : BotState) (hne : prs ≠ []) :
    (check_repository repo env (some prs) issueFetch st).newPrs
      = (partitionNew prs st.seen_prs).1 := by
  simp [check_repository, pyTruthyFetch_some prs hne]

/-- With a nonempty PR fetch, the cycle's final seen-PR set is the
partition pass's grown set. -/
theorem check_repository_seen_prs (repo : String) (env : Embed → DeliveryResult)
    (prs : List RemoteItem) (issueFetch : Option (List RemoteItem))
    (st : BotState) (hne : prs ≠ []) :
    (check_repository repo env (some prs) issueFetch st).state.seen_prs
      = (partitionNew prs st.seen_prs).2 := by
  simp [check_repository, pyTruthyFetch_some prs hne]

/-- With a nonempty issue fetch, the cycle's new issues are the partition
pass's new list over the marker-filtered items. -/
theorem check_repository_newIssues (repo : String) (env : Embed → DeliveryResult)
    (prFetch : Option (List RemoteItem)) (issues : List RemoteItem)
    (st : BotState) (hne : issues ≠ []) :
    (check_repository repo env prFetch (some issues) st).newIssues
      = (partitionNew (issues.filter fun i => !i.pull_request_marker) st.seen_issues).1 := by
  simp [check_repository, pyTruthyFetch_some issues hne]

/-- With a nonempty issue fetch, the cycle's final seen-issue set is the
partition pass's grown set over the marker-filtered items. -/
theorem check_repository_seen_issues (repo : String) (env : Embed → DeliveryResult)
    (prFetch : Option (List RemoteItem)) (issues : List RemoteItem)
    (st : BotState) (hne : issues ≠ []) :
    (check_repository repo env prFetch (some issues) st).state.seen_issues
      = (partitionNew (issues.filter fun i => !i.pull_request_marker) st.seen_issues).2 := by
  simp [check_repository, pyTruthyFetch_some issues hne]

/-- The seen state a cycle computes does not depend on the Discord
channel's behaviour: delivery outcomes never feed back into the sets. -/
theorem check_repository_state_env_independent (repo : String)
    (env1 env2 : Embed → DeliveryResult)
    (prFetch issueFetch : Option (List RemoteItem)) (st : BotState) :
    (check_repository repo env1 prFetch issueFetch st).state
      = (check_repository repo env2 prFetch issueFetch st).state := rfl

/-- Same for the new-item lists the delivery loops are fed from. -/
theorem check_repository_new_env_independent (repo : String)
    (env1 env2 : Embed → DeliveryResult)
    (prFetch issueFetch : Option (List RemoteItem)) (st : BotState) :
    (check_repository repo env1 prFetch issueFetch st).newPrs
        = (check_repository repo env2 prFetch issueFetch st).newPrs ∧
      (check_repository repo env1 prFetch issueFetch st).newIssues
        = (check_repository repo env2 prFetch issueFetch st).newIssues :=
  ⟨rfl, rfl⟩

/-- C1: in a check cycle, every fetched PR's ID is in the seen set the
partition pass produces — a pass that completes before the delivery loop
runs, and whose result (second conjunct) is the same whatever the Discord
channel does, so a failed delivery changes nothing.  Feeding an item with
the same ID into the next cycle therefore yields no new-item entry for it
(third conjunct), and across the two cycles at most one delivery-loop
entry — at most one notification — carries that ID (fourth conjunct). -/
theorem c1_at_most_once_delivery (repo : String)
    (env1 env2 : Embed → DeliveryResult)
    (prs1 prs2 : List RemoteItem) (issueFetch1 issueFetch2 : Option (List RemoteItem))
    (st : BotState) (pr : RemoteItem)
    (h1 : pr ∈ prs1) (h2 : pr ∈ prs2) :
    pr.id ∈ (check_repository repo env1 (some prs1) issueFetch1 st).state.seen_prs ∧
    (check_repository repo env1 (some prs1) issueFetch1 st).state
      = (check_repository repo env2 (some prs1) issueFetch1 st).state ∧
    (∀ j ∈ (check_repository repo env2 (some prs2) issueFetch2
        (check_repository repo env1 (some prs1) issueFetch1 st).state).newPrs,
      j.id ≠ pr.id) ∧
    ((check_repository repo env1 (some prs1) issueFetch1 st).newPrs
        ++ (check_repository repo env2 (some prs2) issueFetch2
            (check_repository repo env1 (some prs1) issueFetch1 st).state).newPrs).countP
        (fun i => decide (i.id = pr.id)) ≤ 1 := by
  have hne1 : prs1 ≠ [] := List.ne_nil_of_mem h1
  have hne2 : prs2 ≠ [] := List.ne_nil_of_mem h2
  have hmem : pr.id ∈ (check_repository repo env1 (some prs1) issueFetch1 st).state.seen_prs := by
    rw [check_repository_seen_prs repo env1 prs1 issueFetch1 st hne1]
    exact partitionNew_mem_seen prs1 st.seen_prs pr h1
  refine ⟨hmem, rfl, ?_, ?_⟩
  · intro j hj
    rw [check_repository_newPrs repo env2 prs2 issueFetch2 _ hne2] at hj
    exact partitionNew_not_new_of_seen prs2 _ pr.id hmem j hj
  · rw [List.countP_append, check_repository_newPrs repo env1 prs1 issueFetch1 st hne1,
      check_repository_newPrs repo env2 prs2 issueFetch2 _ hne2,
      partitionNew_countP_eq_zero prs2 _ pr.id hmem]
    simpa using partitionNew_countP_le_one prs1 st.seen_prs pr.id

/-- Witness for C1: the sample PR fetched in two successive cycles from the
empty state, with every delivery failing in the first cycle, is seen after
cycle one and produces no new-item entry in cycle two. -/
theorem c1_at_most_once_delivery_witness :
    samplePR.id ∈ (check_repository "owner/repo" (fun _ => DeliveryResult.sendError)
        (some [samplePR]) none ⟨∅, ∅⟩).state.seen_prs ∧
    (check_repository "owner/repo" (fun _ => DeliveryResult.sendError)
        (some [samplePR]) none ⟨∅, ∅⟩).state
      = (check_repository "owner/repo" (fun _ => DeliveryResult.sent)
        (some [samplePR]) none ⟨∅, ∅⟩).state ∧
    (∀ j ∈ (check_repository "owner/repo" (fun _ => DeliveryResult.sent) (some [samplePR]) none
        (check_repository "owner/repo" (fun _ => DeliveryResult.sendError)
          (some [samplePR]) none ⟨∅, ∅⟩).state).newPrs,
      j.id ≠ samplePR.id) ∧
    ((check_repository "owner/repo" (fun _ => DeliveryResult.sendError)
          (some [samplePR]) none ⟨∅, ∅⟩).newPrs
        ++ (check_repository "owner/repo" (fun _ => DeliveryResult.sent) (some [samplePR]) none
            (check_repository "owner/repo" (fun _ => DeliveryResult.sendError)
              (some [samplePR]) none ⟨∅, ∅⟩).state).newPrs).countP
        (fun i => decide (i.id = samplePR.id)) ≤ 1 :=
  c1_at_most_once_delivery "owner/repo" (fun _ => DeliveryResult.sendError)
    (fun _ => DeliveryResult.sent) [samplePR] [samplePR] none none ⟨∅, ∅⟩ samplePR
    (List.mem_singleton.mpr rfl) (List.mem_singleton.mpr rfl)

/-- The cycle's new-PR list is a sublist of the fetched PR list. -/
theorem check_repository_newPrs_sublist (repo : String) (env : Embed → DeliveryResult)
    (prs : List RemoteItem) (issueFetch : Option (List RemoteItem)) (st : BotState) :
    List.Sublist (check_repository repo env (some prs) issueFetch st).newPrs prs := by
  cases prs with
  | nil =>
    have h : (check_repository repo env (some []) issueFetch st).newPrs = [] := rfl
    rw [h]
  | cons x t =>
    rw [check_repository_newPrs repo env (x :: t) issueFetch st (by simp)]
    exact partitionNew_sublist (x :: t) st.seen_prs

/-- The cycle's new-issue list is a sublist of the marker-filtered fetched
issue list. -/
theorem check_repository_newIssues_sublist (repo : String) (env : Embed → DeliveryResult)
    (prFetch : Option (List RemoteItem)) (issues : List RemoteItem) (st : BotState) :
    List.Sublist (check_repository repo env prFetch (some issues) st).newIssues
      (issues.filter fun i => !i.pull_request_marker) := by
  cases issues with
  | nil =>
    have h : (check_repository repo env prFetch (some []) st).newIssues = [] := rfl
    rw [h]
    exact List.nil_sublist _
  | cons x t =>
    rw [check_repository_newIssues repo env prFetch (x :: t) st (by simp)]
    exact partitionNew_sublist _ st.seen_issues

/-- C4: when the fetched lists are ordered descending by creation time, the
delivery loops run over the reverse of the partition pass's new lists
(first two conjuncts), and the timestamps of the attempted deliveries are
strictly ascending — oldest first — for PRs and issues alike. -/
theorem c4_oldest_first (repo : String) (env : Embed → DeliveryResult)
    (prs issues : List RemoteItem) (st : BotState)
    (hp : prs.Pairwise fun a b => b.created_at < a.created_at)
    (hi : issues.Pairwise fun a b => b.created_at < a.created_at) :
    (check_repository repo env (some prs) (some issues) st).prDeliveries
      = ((check_repository repo env (some prs) (some issues) st).newPrs.reverse.map
          fun pr => (create_pr_embed repo pr, env (create_pr_embed repo pr))) ∧
    (check_repository repo env (some prs) (some issues) st).issueDeliveries
      = ((check_repository repo env (some prs) (some issues) st).newIssues.reverse.map
          fun issue => (create_issue_embed repo issue, env (create_issue_embed repo issue))) ∧
    ((check_repository repo env (some prs) (some issues) st).prDeliveries.map
        fun d => d.1.timestamp.getD 0).Pairwise (· < ·) ∧
    ((check_repository repo env (some prs) (some issues) st).issueDeliveries.map
        fun d => d.1.timestamp.getD 0).Pairwise (· < ·) := by
  refine ⟨rfl, rfl, ?_, ?_⟩
  · have hdesc : (check_repository repo env (some prs) (some issues) st).newPrs.Pairwise
        (fun a b => b.created_at < a.created_at) :=
      List.Pairwise.sublist (check_repository_newPrs_sublist repo env prs (some issues) st) hp
    have hasc := List.pairwise_reverse.mpr hdesc
    have hmap : (check_repository repo env (some prs) (some issues) st).prDeliveries.map
          (fun d => d.1.timestamp.getD 0)
        = (check_repository repo env (some prs) (some issues) st).newPrs.reverse.map
          (fun pr => pr.created_at) := by
      rw [show (check_repository repo env (some prs) (some issues) st).prDeliveries
          = ((check_repository repo env (some prs) (some issues) st).newPrs.reverse.map
              fun pr => (create_pr_embed repo pr, env (create_pr_embed repo pr))) from rfl,
        List.map_map]
      rfl
    rw [hmap]
    exact List.pairwise_map.mpr hasc
  · have hfil : (issues.filter fun i => !i.pull_request_marker).Pairwise
        (fun a b => b.created_at < a.created_at) :=
      List.Pairwise.sublist (List.filter_sublist issues) hi
    have hdesc : (check_repository repo env (some prs) (some issues) st).newIssues.Pairwise
        (fun a b => b.created_at < a.created_at) :=
      List.Pairwise.sublist (check_repository_newIssues_sublist repo env (some prs) issues st) hfil
    have hasc := List.pairwise_reverse.mpr hdesc
    have hmap : (check_repository repo env (some prs) (some issues) st).issueDeliveries.map
          (fun d => d.1.timestamp.getD 0)
        = (check_repository repo env (some prs) (some issues) st).newIssues.reverse.map
          (fun issue => issue.created_at) := by
      rw [show (check_repository repo env (some prs) (some issues) st).issueDeliveries
          = ((check_repository repo env (some prs) (some issues) st).newIssues.reverse.map
              fun issue => (create_issue_embed repo issue, env (create_issue_embed repo issue)))
          from rfl,
        List.map_map]
      rfl
    rw [hmap]
    exact List.pairwise_map.mpr hasc

/-- The sample PR at creation time 1. -/
def prT1 : RemoteItem := { samplePR with id := 41, number := 5, created_at := 1 }

/-- The sample PR at creation time 2. -/
def prT2 : RemoteItem := { samplePR with id := 42, number := 6, created_at := 2 }

/-- The sample PR at creation time 3. -/
def prT3 : RemoteItem := { samplePR with id := 43, number := 7, created_at := 3 }

/-- Witness for C4: fetching the all-new PRs with creation times 3, 2, 1 in
descending order (and one issue) from the empty state yields delivery
attempts with strictly ascending timestamps, i.e. in the order 1, 2, 3. -/
theorem c4_oldest_first_witness :
    (check_repository "owner/repo" (fun _ => DeliveryResult.sent)
        (some [prT3, prT2, prT1]) (some [sampleIssue]) ⟨∅, ∅⟩).prDeliveries
      = ((check_repository "owner/repo" (fun _ => DeliveryResult.sent)
          (some [prT3, prT2, prT1]) (some [sampleIssue]) ⟨∅, ∅⟩).newPrs.reverse.map
          fun pr => (create_pr_embed "owner/repo" pr,
            (fun _ => DeliveryResult.sent) (create_pr_embed "owner/repo" pr))) ∧
    (check_repository "owner/repo" (fun _ => DeliveryResult.sent)
        (some [prT3, prT2, prT1]) (some [sampleIssue]) ⟨∅, ∅⟩).issueDeliveries
      = ((check_repository "owner/repo" (fun _ => DeliveryResult.sent)
          (some [prT3, prT2, prT1]) (some [sampleIssue]) ⟨∅, ∅⟩).newIssues.reverse.map
          fun issue => (create_issue_embed "owner/repo" issue,
            (fun _ => DeliveryResult.sent) (create_issue_embed "owner/repo" issue))) ∧
    ((check_repository "owner/repo" (fun _ => DeliveryResult.sent)
        (some [prT3, prT2, prT1]) (some [sampleIssue]) ⟨∅, ∅⟩).prDeliveries.map
        fun d => d.1.timestamp.getD 0).Pairwise (· < ·) ∧
    ((check_repository "owner/repo" (fun _ => DeliveryResult.sent)
        (some [prT3, prT2, prT1]) (some [sampleIssue]) ⟨∅, ∅⟩).issueDeliveries.map
        fun d => d.1.timestamp.getD 0).Pairwise (· < ·) :=
  c4_oldest_first "owner/repo" (fun _ => DeliveryResult.sent)
    [prT3, prT2, prT1] [sampleIssue] ⟨∅, ∅⟩ (by decide) (by decide)

/-- C5: an issues-endpoint item carrying the pull-request marker is dropped
before the new/known partition: it never appears in the cycle's new-issue
list (the issue-notification path), and — provided no unmarked fetched item
shares its ID — its ID is never added to the seen-issues set. -/
theorem c5_marker_items_dropped (repo : String) (env : Embed → DeliveryResult)
    (prFetch : Option (List RemoteItem)) (issues : List RemoteItem) (st : BotState)
    (i : RemoteItem) (hi : i ∈ issues) (hmark : i.pull_request_marker = true)
    (hnot : i.id ∉ st.seen_issues)
    (hall : ∀ j ∈ issues, j.id = i.id → j.pull_request_marker = true) :
    i ∉ (check_repository repo env prFetch (some issues) st).newIssues ∧
    i.id ∉ (check_repository repo env prFetch (some issues) st).state.seen_issues := by
  have hne : issues ≠ [] := List.ne_nil_of_mem hi
  constructor
  · intro hmem
    have hf : i ∈ issues.filter fun j => !j.pull_request_marker :=
      (check_repository_newIssues_sublist repo env prFetch issues st).subset hmem
    have := (List.mem_filter.mp hf).2
    rw [hmark] at this
    cases this
  · intro hmem
    rw [check_repository_seen_issues repo env prFetch issues st hne] at hmem
    rcases partitionNew_seen_src _ _ _ hmem with h | ⟨j, hj, hjid⟩
    · exact hnot h
    · have hjf := List.mem_filter.mp hj
      have := hall j hjf.1 hjid
      rw [this] at hjf
      cases hjf.2

/-- Witness for C5: the marked sample item fetched alongside the sample
issue is neither notified nor remembered. -/
theorem c5_marker_items_dropped_witness :
    sampleMarkedIssue ∉ (check_repository "owner/repo" (fun _ => DeliveryResult.sent)
        none (some [sampleIssue, sampleMarkedIssue]) ⟨∅, ∅⟩).newIssues ∧
    sampleMarkedIssue.id ∉ (check_repository "owner/repo" (fun _ => DeliveryResult.sent)
        none (some [sampleIssue, sampleMarkedIssue]) ⟨∅, ∅⟩).state.seen_issues :=
  c5_marker_items_dropped "owner/repo" (fun _ => DeliveryResult.sent) none
    [sampleIssue, sampleMarkedIssue] ⟨∅, ∅⟩ sampleMarkedIssue
    (by simp) rfl (Finset.not_mem_empty _) (by decide)

/-- C6: no operation of the check cycle removes an ID from either seen set
— whatever the fetches, channel behaviour and starting state, the cycle's
final sets contain the starting sets — while the explicit reset operation
clears both sets. -/
theorem c6_seen_sets_monotone (repo : String) (env : Embed → DeliveryResult)
    (prFetch issueFetch : Option (List RemoteItem)) (st : BotState) :
    st.seen_prs ⊆ (check_repository repo env prFetch issueFetch st).state.seen_prs ∧
    st.seen_issues ⊆ (check_repository repo env prFetch issueFetch st).state.seen_issues ∧
    (reset st).state.seen_prs = ∅ ∧
    (reset st).state.seen_issues = ∅ := by
  refine ⟨?_, ?_, rfl, rfl⟩
  · show st.seen_prs ⊆
      (if pyTruthyFetch prFetch then partitionNew (prFetch.getD []) st.seen_prs
       else ([], st.seen_prs)).2
    split
    · exact partitionNew_seen_mono _ _
    · exact Finset.Subset.refl _
  · show st.seen_issues ⊆
      (if pyTruthyFetch issueFetch
       then partitionNew ((issueFetch.getD []).filter fun i => !i.pull_request_marker)
         st.seen_issues
       else ([], st.seen_issues)).2
    split
    · exact partitionNew_seen_mono _ _
    · exact Finset.Subset.refl _

/-- Witness for C6: IDs 11 and 21, seen before a cycle that fetches the
samples, are still seen after it, and reset empties both sets. -/
theorem c6_seen_sets_monotone_witness :
    11 ∈ (check_repository "owner/repo" (fun _ => DeliveryResult.sent)
        (some [samplePR]) (some [sampleIssue]) ⟨{11}, {21}⟩).state.seen_prs ∧
    21 ∈ (check_repository "owner/repo" (fun _ => DeliveryResult.sent)
        (some [samplePR]) (some [sampleIssue]) ⟨{11}, {21}⟩).state.seen_issues ∧
    (reset ⟨{11}, {21}⟩).state.seen_prs = ∅ ∧
    (reset ⟨{11}, {21}⟩).state.seen_issues = ∅ :=
  ⟨(c6_seen_sets_monotone "owner/repo" (fun _ => DeliveryResult.sent)
      (some [samplePR]) (some [sampleIssue]) ⟨{11}, {21}⟩).1 (by decide),
   (c6_seen_sets_monotone "owner/repo" (fun _ => DeliveryResult.sent)
      (some [samplePR]) (some [sampleIssue]) ⟨{11}, {21}⟩).2.1 (by decide),
   (c6_seen_sets_monotone "owner/repo" (fun _ => DeliveryResult.sent)
      (some [samplePR]) (some [sampleIssue]) ⟨{11}, {21}⟩).2.2.1,
   (c6_seen_sets_monotone "owner/repo" (fun _ => DeliveryResult.sent)
      (some [samplePR]) (some [sampleIssue]) ⟨{11}, {21}⟩).2.2.2⟩

/-- C8: when the PR fetch comes back unavailable, the cycle leaves the
seen-PR set unchanged and attempts no PR delivery, the issue fetch with its
novelty processing and notifications proceeds exactly as in any cycle with
the same issue fetch, and the state is still persisted at cycle end. -/
theorem c8_pr_unavailable_isolation (repo : String) (env : Embed → DeliveryResult)
    (issueFetch : Option (List RemoteItem)) (st : BotState)
    (prAlt : Option (List RemoteItem)) :
    (check_repository repo env none issueFetch st).state.seen_prs = st.seen_prs ∧
    (check_repository repo env none issueFetch st).newPrs = [] ∧
    (check_repository repo env none issueFetch st).prDeliveries = [] ∧
    (check_repository repo env none issueFetch st).newIssues
      = (check_repository repo env prAlt issueFetch st).newIssues ∧
    (check_repository repo env none issueFetch st).issueDeliveries
      = (check_repository repo env prAlt issueFetch st).issueDeliveries ∧
    (check_repository repo env none issueFetch st).state.seen_issues
      = (check_repository repo env prAlt issueFetch st).state.seen_issues ∧
    (check_repository repo env none issueFetch st).saved
      = (check_repository repo env none issueFetch st).state :=
  ⟨rfl, rfl, rfl, rfl, rfl, rfl, rfl⟩

/-- C9: the reset operation empties both seen sets and persists the cleared
state, and an item whose ID was seen before the reset is partitioned as new
— some new-list entry carries its ID — on the next cycle that fetches it. -/
theorem c9_reset_semantics (repo : String) (env : Embed → DeliveryResult)
    (issueFetch : Option (List RemoteItem)) (st : BotState)
    (items : List RemoteItem) (pr : RemoteItem)
    (_hseen : pr.id ∈ st.seen_prs) (hmem : pr ∈ items) :
    (reset st).state = ⟨∅, ∅⟩ ∧
    (reset st).saved = ⟨∅, ∅⟩ ∧
    ∃ j ∈ (check_repository repo env (some items) issueFetch (reset st).state).newPrs,
      j.id = pr.id := by
  refine ⟨rfl, rfl, ?_⟩
  rw [check_repository_newPrs repo env items issueFetch _ (List.ne_nil_of_mem hmem)]
  exact partitionNew_new_of_not_seen items _ pr hmem (Finset.not_mem_empty _)

/-- Witness for C9: after resetting a state that has seen the sample PR,
the next cycle fetching it partitions it as new again. -/
theorem c9_reset_semantics_witness :
    (reset ⟨{11}, ∅⟩).state = ⟨∅, ∅⟩ ∧
    (reset ⟨{11}, ∅⟩).saved = ⟨∅, ∅⟩ ∧
    ∃ j ∈ (check_repository "owner/repo" (fun _ => DeliveryResult.sent)
        (some [samplePR]) none (reset ⟨{11}, ∅⟩).state).newPrs,
      j.id = samplePR.id :=
  c9_reset_semantics "owner/repo" (fun _ => DeliveryResult.sent) none
    ⟨{11}, ∅⟩ [samplePR] samplePR (by decide) (List.mem_singleton.mpr rfl)

/-- C10: when loading the persisted seen-items file fails, the handler
resets both seen sets to empty instead of keeping the prior in-memory
state, so every previously seen item that is still fetched is partitioned
as new — re-notified — on the next cycle. -/
theorem c10_load_error_resets (repo : String) (env : Embed → DeliveryResult)
    (issueFetch : Option (List RemoteItem)) (st : BotState)
    (items : List RemoteItem) (item : RemoteItem)
    (_hseen : item.id ∈ st.seen_prs) (hmem : item ∈ items) :
    load_seen_items .loadError st = ⟨∅, ∅⟩ ∧
    ∃ j ∈ (check_repository repo env (some items) issueFetch
        (load_seen_items .loadError st)).newPrs,
      j.id = item.id := by
  refine ⟨rfl, ?_⟩
  rw [check_repository_newPrs repo env items issueFetch _ (List.ne_nil_of_mem hmem)]
  exact partitionNew_new_of_not_seen items _ item hmem (Finset.not_mem_empty _)

/-- Witness for C10: a corrupt state file wipes a state that had seen the
sample PR, and the next cycle treats the sample PR as new. -/
theorem c10_load_error_resets_witness :
    load_seen_items .loadError ⟨{11}, {21}⟩ = ⟨∅, ∅⟩ ∧
    ∃ j ∈ (check_repository "owner/repo" (fun _ => DeliveryResult.sent)
        (some [samplePR]) none (load_seen_items .loadError ⟨{11}, {21}⟩)).newPrs,
      j.id = samplePR.id :=
  c10_load_error_resets "owner/repo" (fun _ => DeliveryResult.sent) none
    ⟨{11}, {21}⟩ [samplePR] samplePR (by decide) (List.mem_singleton.mpr rfl)
